import Mathlib

/-!
# govips shims (`vips.h`)

A shallow embedding of the fixed-arity shims of `vips.h`.  Every shim forwards
to one variadic libvips entry point.  The wrapped library is not part of the
program: it is a parameter `lib` that maps a call and the current library state
to a status code and a new state.  A call is recorded as data (entry point,
positional arguments, NULL-terminated option list), so that what a shim hands
to the library can be inspected.
-/

namespace Govips

/-! ## C values and variadic calls -/

/-- A pointer, as an address; `0` is `NULL`. -/
abbrev Ptr := Nat

/-- A `size_t` value. -/
abbrev CSize := Nat

/-- An `int`, `gint`, `gboolean` or enum value. -/
abbrev CInt := Int

/-- A `double` or `gdouble`, carried as its IEEE 754 binary64 pattern: sign in
bit 63, biased exponent in bits 52 to 62, fraction in bits 0 to 51. -/
abbrev CDouble := Nat

/-- C values that cross the shim boundary, tagged by kind. -/
inductive Val where
  | ptr (addr : Ptr)
  | size (n : CSize)
  | int (i : CInt)
  | double (bits : CDouble)
  deriving DecidableEq, Repr

/-- One call of a variadic libvips entry point: its name, the positional
arguments, and the `(name, value)` pairs that precede the terminating `NULL`. -/
structure Call where
  entry : String
  positional : List Val
  options : List (String × Val)
  deriving DecidableEq, Repr

/-- The wrapped library: a call in a library state gives a status code and the
next library state (output handles and buffers live in that state). -/
abbrev Lib (σ : Type) := Call → σ → Int × σ

/-- State threaded through a shim: the library state and the calls made so far,
oldest first. -/
structure World (σ : Type) where
  state : σ
  calls : List Call

/-- Perform one library call: run it on the library state, log it, and give
back its status code. -/
def vips_call {σ : Type} (lib : Lib σ) (c : Call) (w : World σ) : Int × World σ :=
  ((lib c w.state).1, ⟨(lib c w.state).2, w.calls ++ [c]⟩)

/-- Names of the options a call carries, in order. -/
def Call.optionNames (c : Call) : List String :=
  c.options.map Prod.fst

/-- Values of the options a call carries, in order. -/
def Call.optionValues (c : Call) : List Val :=
  c.options.map Prod.snd

/-- Value of the option `name` in a call, when the call carries it. -/
def Call.option (c : Call) (name : String) : Option Val :=
  (c.options.find? (fun kv => decide (kv.1 = name))).map Prod.snd

/-- The C conversion from `double` to `int`, which the compiler inserts where a
`double` is passed for an `int` parameter: the value with its fractional part
dropped (truncation toward zero).  C leaves the result undefined when the
truncated value is not an `int`, and for infinities and NaN; there the model
gives `INT_MIN`, the result of the x86-64 conversion instruction. -/
def double_to_int (d : CDouble) : CInt :=
  let sign := d / 2 ^ 63 % 2
  let e := d / 2 ^ 52 % 2 ^ 11
  let frac := d % 2 ^ 52
  if e = 2047 then
    -2 ^ 31
  else
    let significand : Nat := if e = 0 then frac else 2 ^ 52 + frac
    let e1 : Nat := if e = 0 then 1 else e
    let magnitude : Nat :=
      if 1075 ≤ e1 then significand * 2 ^ (e1 - 1075) else significand / 2 ^ (1075 - e1)
    let v : Int := if sign = 1 then -(magnitude : Int) else (magnitude : Int)
    if -2 ^ 31 ≤ v ∧ v < 2 ^ 31 then v else -2 ^ 31

/-! ## The shims -/

/-- Source: `govips_gifload_buffer`. -/
def govips_gifload_buffer {σ : Type} (lib : Lib σ)
    (input : Ptr) (length : CSize) (output : Ptr) (page access disc : CInt)
    (w : World σ) : Int × World σ :=
  vips_call lib
    ⟨"vips_gifload_buffer",
      [.ptr input, .size length, .ptr output],
      [("page", .int page),
       ("access", .int access),
       ("disc", .int disc)]⟩ w

/-- Source: `govips_jpegload_buffer`. -/
def govips_jpegload_buffer {σ : Type} (lib : Lib σ)
    (input : Ptr) (length : CSize) (output : Ptr)
    (shrink fail autorotate access disc : CInt)
    (w : World σ) : Int × World σ :=
  vips_call lib
    ⟨"vips_jpegload_buffer",
      [.ptr input, .size length, .ptr output],
      [("shrink", .int shrink),
       ("fail", .int fail),
       ("autorotate", .int autorotate),
       ("access", .int access),
       ("disc", .int disc)]⟩ w

/-- Source: `govips_jpegsave_buffer`. -/
def govips_jpegsave_buffer {σ : Type} (lib : Lib σ)
    (input output length : Ptr) (Q : CInt) (profile : Ptr)
    (optimize_coding interlace strip nosubsample trellis_quant overshoot_deringing
      optimize_scans quant_table : CInt)
    (w : World σ) : Int × World σ :=
  vips_call lib
    ⟨"vips_jpegsave_buffer",
      [.ptr input, .ptr output, .ptr length],
      [("Q", .int Q),
       ("profile", .ptr profile),
       ("optimize_coding", .int optimize_coding),
       ("interlace", .int interlace),
       ("strip", .int strip),
       ("no-subsample", .int nosubsample),
       ("trellis_quant", .int trellis_quant),
       ("overshoot_deringing", .int overshoot_deringing),
       ("optimize_scans", .int optimize_scans),
       ("quant_table", .int quant_table)]⟩ w

/-- Source: `govips_jpegsave`. -/
def govips_jpegsave {σ : Type} (lib : Lib σ)
    (input filename : Ptr) (Q : CInt) (profile : Ptr)
    (optimize_coding interlace strip nosubsample trellis_quant overshoot_deringing
      optimize_scans quant_table : CInt)
    (w : World σ) : Int × World σ :=
  vips_call lib
    ⟨"vips_jpegsave",
      [.ptr input, .ptr filename],
      [("Q", .int Q),
       ("profile", .ptr profile),
       ("optimize_coding", .int optimize_coding),
       ("interlace", .int interlace),
       ("strip", .int strip),
       ("no-subsample", .int nosubsample),
       ("trellis_quant", .int trellis_quant),
       ("overshoot_deringing", .int overshoot_deringing),
       ("optimize_scans", .int optimize_scans),
       ("quant_table", .int quant_table)]⟩ w

/-- Source: `govips_magickload_buffer`. -/
def govips_magickload_buffer {σ : Type} (lib : Lib σ)
    (input : Ptr) (length : CSize) (output : Ptr) (all_frames : CInt) (density : Ptr)
    (page access disc : CInt)
    (w : World σ) : Int × World σ :=
  vips_call lib
    ⟨"vips_magickload_buffer",
      [.ptr input, .size length, .ptr output],
      [("all_frames", .int all_frames),
       ("density", .ptr density),
       ("page", .int page),
       ("access", .int access),
       ("disc", .int disc)]⟩ w

/-- Source: `govips_pngload_buffer`. -/
def govips_pngload_buffer {σ : Type} (lib : Lib σ)
    (input : Ptr) (length : CSize) (output : Ptr) (access disc : CInt)
    (w : World σ) : Int × World σ :=
  vips_call lib
    ⟨"vips_pngload_buffer",
      [.ptr input, .size length, .ptr output],
      [("access", .int access),
       ("disc", .int disc)]⟩ w

/-- Source: `govips_pngsave_buffer`. -/
def govips_pngsave_buffer {σ : Type} (lib : Lib σ)
    (input output length : Ptr) (compression interlace : CInt) (profile : Ptr)
    (filter : CInt)
    (w : World σ) : Int × World σ :=
  vips_call lib
    ⟨"vips_pngsave_buffer",
      [.ptr input, .ptr output, .ptr length],
      [("compression", .int compression),
       ("interlace", .int interlace),
       ("profile", .ptr profile),
       ("filter", .int filter)]⟩ w

/-- Source: `govips_pngsave`. -/
def govips_pngsave {σ : Type} (lib : Lib σ)
    (input filename : Ptr) (compression interlace : CInt) (profile : Ptr)
    (filter : CInt)
    (w : World σ) : Int × World σ :=
  vips_call lib
    ⟨"vips_pngsave",
      [.ptr input, .ptr filename],
      [("compression", .int compression),
       ("interlace", .int interlace),
       ("profile", .ptr profile),
       ("filter", .int filter)]⟩ w

/-- Source: `govips_webpload_buffer`. -/
def govips_webpload_buffer {σ : Type} (lib : Lib σ)
    (input : Ptr) (length : CSize) (output : Ptr) (shrink access disc : CInt)
    (w : World σ) : Int × World σ :=
  vips_call lib
    ⟨"vips_webpload_buffer",
      [.ptr input, .size length, .ptr output],
      [("shrink", .int shrink),
       ("access", .int access),
       ("disc", .int disc)]⟩ w

/-- Source: `govips_webpsave_buffer`. -/
def govips_webpsave_buffer {σ : Type} (lib : Lib σ)
    (input output length : Ptr)
    (Q lossless preset smart_subsample near_lossless alpha_q : CInt)
    (w : World σ) : Int × World σ :=
  vips_call lib
    ⟨"vips_webpsave_buffer",
      [.ptr input, .ptr output, .ptr length],
      [("Q", .int Q),
       ("lossless", .int lossless),
       ("preset", .int preset),
       ("smart_subsample", .int smart_subsample),
       ("near_lossless", .int near_lossless),
       ("alpha_q", .int alpha_q),
       ("strip", .int 1)]⟩ w

/-- Source: `govips_webpsave`. -/
def govips_webpsave {σ : Type} (lib : Lib σ)
    (input filename : Ptr)
    (Q lossless preset smart_subsample near_lossless alpha_q : CInt)
    (w : World σ) : Int × World σ :=
  vips_call lib
    ⟨"vips_webpsave",
      [.ptr input, .ptr filename],
      [("Q", .int Q),
       ("lossless", .int lossless),
       ("preset", .int preset),
       ("smart_subsample", .int smart_subsample),
       ("near_lossless", .int near_lossless),
       ("alpha_q", .int alpha_q),
       ("strip", .int 1)]⟩ w

/-- Source: `govips_embed`.  `VIPS_EXTEND_BACKGROUND` is an enumerator of the libvips
headers, which are not part of the program; it is taken as a parameter. -/
def govips_embed {σ : Type} (VIPS_EXTEND_BACKGROUND : CInt) (lib : Lib σ)
    (in_ out : Ptr) (x y width height extend : CInt) (background : Ptr)
    (w : World σ) : Int × World σ :=
  if extend = VIPS_EXTEND_BACKGROUND ∧ background ≠ 0 then
    vips_call lib
      ⟨"vips_embed",
        [.ptr in_, .ptr out, .int x, .int y, .int width, .int height],
        [("extend", .int extend),
         ("background", .ptr background)]⟩ w
  else
    vips_call lib
      ⟨"vips_embed",
        [.ptr in_, .ptr out, .int x, .int y, .int width, .int height],
        [("extend", .int extend)]⟩ w

/-- Source: `govips_extract_area`. -/
def govips_extract_area {σ : Type} (lib : Lib σ)
    (in_ out : Ptr) (left top width height : CInt)
    (w : World σ) : Int × World σ :=
  vips_call lib
    ⟨"vips_extract_area",
      [.ptr in_, .ptr out, .int left, .int top, .int width, .int height],
      []⟩ w

/-- Source: `govips_shrink`. -/
def govips_shrink {σ : Type} (lib : Lib σ)
    (in_ out : Ptr) (xshrink yshrink : CDouble)
    (w : World σ) : Int × World σ :=
  vips_call lib
    ⟨"vips_shrink",
      [.ptr in_, .ptr out, .double xshrink, .double yshrink],
      []⟩ w

/-- Source: `govips_shrinkh`.  The shim takes `xshrink` as a `double`; libvips
declares `vips_shrinkh(in, out, int hshrink, ...)`, so the argument is converted
to `int` at the call. -/
def govips_shrinkh {σ : Type} (lib : Lib σ)
    (in_ out : Ptr) (xshrink : CDouble)
    (w : World σ) : Int × World σ :=
  vips_call lib
    ⟨"vips_shrinkh",
      [.ptr in_, .ptr out, .int (double_to_int xshrink)],
      []⟩ w

/-- Source: `govips_shrinkv`.  The shim takes `yshrink` as a `double`; libvips
declares `vips_shrinkv(in, out, int vshrink, ...)`, so the argument is converted
to `int` at the call. -/
def govips_shrinkv {σ : Type} (lib : Lib σ)
    (in_ out : Ptr) (yshrink : CDouble)
    (w : World σ) : Int × World σ :=
  vips_call lib
    ⟨"vips_shrinkv",
      [.ptr in_, .ptr out, .int (double_to_int yshrink)],
      []⟩ w

/-- Source: `govips_reduce`. -/
def govips_reduce {σ : Type} (lib : Lib σ)
    (in_ out : Ptr) (xshrink yshrink : CDouble) (kernel : CInt)
    (w : World σ) : Int × World σ :=
  vips_call lib
    ⟨"vips_reduce",
      [.ptr in_, .ptr out, .double xshrink, .double yshrink],
      [("kernel", .int kernel)]⟩ w

/-- Source: `govips_reduceh`. -/
def govips_reduceh {σ : Type} (lib : Lib σ)
    (in_ out : Ptr) (xshrink : CDouble) (kernel : CInt)
    (w : World σ) : Int × World σ :=
  vips_call lib
    ⟨"vips_reduceh",
      [.ptr in_, .ptr out, .double xshrink],
      [("kernel", .int kernel)]⟩ w

/-- Source: `govips_reducev`. -/
def govips_reducev {σ : Type} (lib : Lib σ)
    (in_ out : Ptr) (yshrink : CDouble) (kernel : CInt)
    (w : World σ) : Int × World σ :=
  vips_call lib
    ⟨"vips_reducev",
      [.ptr in_, .ptr out, .double yshrink],
      [("kernel", .int kernel)]⟩ w

/-- Source: `govips_resize`. -/
def govips_resize {σ : Type} (lib : Lib σ)
    (in_ out : Ptr) (scale vscale : CDouble) (kernel : CInt)
    (w : World σ) : Int × World σ :=
  vips_call lib
    ⟨"vips_resize",
      [.ptr in_, .ptr out, .double scale],
      [("vscale", .double vscale),
       ("kernel", .int kernel)]⟩ w

/-- Source: `govips_similarity`. -/
def govips_similarity {σ : Type} (lib : Lib σ)
    (in_ out : Ptr) (scale angle : CDouble) (interpolate : Ptr)
    (idx idy odx ody : CDouble)
    (w : World σ) : Int × World σ :=
  vips_call lib
    ⟨"vips_similarity",
      [.ptr in_, .ptr out],
      [("scale", .double scale),
       ("angle", .double angle),
       ("interpolate", .ptr interpolate),
       ("idx", .double idx),
       ("idy", .double idy),
       ("odx", .double odx),
       ("ody", .double ody)]⟩ w

/-- Source: `govips_affine`. -/
def govips_affine {σ : Type} (lib : Lib σ)
    (in_ out : Ptr) (a b c d : CDouble) (interpolate oarea : Ptr)
    (idx idy odx ody : CDouble)
    (w : World σ) : Int × World σ :=
  if oarea = 0 then
    vips_call lib
      ⟨"vips_affine",
        [.ptr in_, .ptr out, .double a, .double b, .double c, .double d],
        [("interpolate", .ptr interpolate),
         ("idx", .double idx),
         ("idy", .double idy),
         ("odx", .double odx),
         ("ody", .double ody)]⟩ w
  else
    vips_call lib
      ⟨"vips_affine",
        [.ptr in_, .ptr out, .double a, .double b, .double c, .double d],
        [("interpolate", .ptr interpolate),
         ("oarea", .ptr oarea),
         ("idx", .double idx),
         ("idy", .double idy),
         ("odx", .double odx),
         ("ody", .double ody)]⟩ w

/-- Source: `govips_gaussblur`. -/
def govips_gaussblur {σ : Type} (lib : Lib σ)
    (in_ out : Ptr) (sigma : CDouble) (precision : CInt) (min_ampl : CDouble)
    (w : World σ) : Int × World σ :=
  vips_call lib
    ⟨"vips_gaussblur",
      [.ptr in_, .ptr out, .double sigma],
      [("precision", .int precision),
       ("min_ampl", .double min_ampl)]⟩ w

/-- Source: `govips_sharpen`. -/
def govips_sharpen {σ : Type} (lib : Lib σ)
    (in_ out : Ptr) (sigma x1 y2 y3 m1 m2 : CDouble)
    (w : World σ) : Int × World σ :=
  vips_call lib
    ⟨"vips_sharpen",
      [.ptr in_, .ptr out],
      [("sigma", .double sigma),
       ("x1", .double x1),
       ("y2", .double y2),
       ("y3", .double y3),
       ("m1", .double m1),
       ("m2", .double m2)]⟩ w

/-- Source: `govips_flatten`. -/
def govips_flatten {σ : Type} (lib : Lib σ)
    (in_ out background : Ptr) (max_alpha : CDouble)
    (w : World σ) : Int × World σ :=
  if background = 0 then
    vips_call lib
      ⟨"vips_flatten",
        [.ptr in_, .ptr out],
        [("max_alpha", .double max_alpha)]⟩ w
  else
    vips_call lib
      ⟨"vips_flatten",
        [.ptr in_, .ptr out],
        [("background", .ptr background),
         ("max_alpha", .double max_alpha)]⟩ w

/-- Source: `govips_colourspace`. -/
def govips_colourspace {σ : Type} (lib : Lib σ)
    (in_ out : Ptr) (space source_space : CInt)
    (w : World σ) : Int × World σ :=
  vips_call lib
    ⟨"vips_colourspace",
      [.ptr in_, .ptr out, .int space],
      [("source_space", .int source_space)]⟩ w

/-- Source: `govips_icc_transform`. -/
def govips_icc_transform {σ : Type} (lib : Lib σ)
    (in_ out output_profile input_profile : Ptr) (intent depth embedded : CInt)
    (w : World σ) : Int × World σ :=
  vips_call lib
    ⟨"vips_icc_transform",
      [.ptr in_, .ptr out, .ptr output_profile],
      [("input_profile", .ptr input_profile),
       ("intent", .int intent),
       ("depth", .int depth),
       ("embedded", .int embedded)]⟩ w

/-! ## Uniform view of the shims -/

/-- One invocation of a shim: which shim, and its arguments in the order of the C
parameter list. -/
inductive Invocation where
  | gifload_buffer (input : Ptr) (length : CSize) (output : Ptr) (page access disc : CInt)
  | jpegload_buffer (input : Ptr) (length : CSize) (output : Ptr)
      (shrink fail autorotate access disc : CInt)
  | jpegsave_buffer (input output length : Ptr) (Q : CInt) (profile : Ptr)
      (optimize_coding interlace strip nosubsample trellis_quant overshoot_deringing
        optimize_scans quant_table : CInt)
  | jpegsave (input filename : Ptr) (Q : CInt) (profile : Ptr)
      (optimize_coding interlace strip nosubsample trellis_quant overshoot_deringing
        optimize_scans quant_table : CInt)
  | magickload_buffer (input : Ptr) (length : CSize) (output : Ptr) (all_frames : CInt)
      (density : Ptr) (page access disc : CInt)
  | pngload_buffer (input : Ptr) (length : CSize) (output : Ptr) (access disc : CInt)
  | pngsave_buffer (input output length : Ptr) (compression interlace : CInt)
      (profile : Ptr) (filter : CInt)
  | pngsave (input filename : Ptr) (compression interlace : CInt) (profile : Ptr)
      (filter : CInt)
  | webpload_buffer (input : Ptr) (length : CSize) (output : Ptr)
      (shrink access disc : CInt)
  | webpsave_buffer (input output length : Ptr)
      (Q lossless preset smart_subsample near_lossless alpha_q : CInt)
  | webpsave (input filename : Ptr)
      (Q lossless preset smart_subsample near_lossless alpha_q : CInt)
  | embed (in_ out : Ptr) (x y width height extend : CInt) (background : Ptr)
  | extract_area (in_ out : Ptr) (left top width height : CInt)
  | shrink (in_ out : Ptr) (xshrink yshrink : CDouble)
  | shrinkh (in_ out : Ptr) (xshrink : CDouble)
  | shrinkv (in_ out : Ptr) (yshrink : CDouble)
  | reduce (in_ out : Ptr) (xshrink yshrink : CDouble) (kernel : CInt)
  | reduceh (in_ out : Ptr) (xshrink : CDouble) (kernel : CInt)
  | reducev (in_ out : Ptr) (yshrink : CDouble) (kernel : CInt)
  | resize (in_ out : Ptr) (scale vscale : CDouble) (kernel : CInt)
  | similarity (in_ out : Ptr) (scale angle : CDouble) (interpolate : Ptr)
      (idx idy odx ody : CDouble)
  | affine (in_ out : Ptr) (a b c d : CDouble) (interpolate oarea : Ptr)
      (idx idy odx ody : CDouble)
  | gaussblur (in_ out : Ptr) (sigma : CDouble) (precision : CInt) (min_ampl : CDouble)
  | sharpen (in_ out : Ptr) (sigma x1 y2 y3 m1 m2 : CDouble)
  | flatten (in_ out background : Ptr) (max_alpha : CDouble)
  | colourspace (in_ out : Ptr) (space source_space : CInt)
  | icc_transform (in_ out output_profile input_profile : Ptr)
      (intent depth embedded : CInt)

/-- Name of the shim an invocation is of. -/
def shimName : Invocation → String
  | .gifload_buffer _ _ _ _ _ _ => "govips_gifload_buffer"
  | .jpegload_buffer _ _ _ _ _ _ _ _ => "govips_jpegload_buffer"
  | .jpegsave_buffer _ _ _ _ _ _ _ _ _ _ _ _ _ => "govips_jpegsave_buffer"
  | .jpegsave _ _ _ _ _ _ _ _ _ _ _ _ => "govips_jpegsave"
  | .magickload_buffer _ _ _ _ _ _ _ _ => "govips_magickload_buffer"
  | .pngload_buffer _ _ _ _ _ => "govips_pngload_buffer"
  | .pngsave_buffer _ _ _ _ _ _ _ => "govips_pngsave_buffer"
  | .pngsave _ _ _ _ _ _ => "govips_pngsave"
  | .webpload_buffer _ _ _ _ _ _ => "govips_webpload_buffer"
  | .webpsave_buffer _ _ _ _ _ _ _ _ _ => "govips_webpsave_buffer"
  | .webpsave _ _ _ _ _ _ _ _ => "govips_webpsave"
  | .embed _ _ _ _ _ _ _ _ => "govips_embed"
  | .extract_area _ _ _ _ _ _ => "govips_extract_area"
  | .shrink _ _ _ _ => "govips_shrink"
  | .shrinkh _ _ _ => "govips_shrinkh"
  | .shrinkv _ _ _ => "govips_shrinkv"
  | .reduce _ _ _ _ _ => "govips_reduce"
  | .reduceh _ _ _ _ => "govips_reduceh"
  | .reducev _ _ _ _ => "govips_reducev"
  | .resize _ _ _ _ _ => "govips_resize"
  | .similarity _ _ _ _ _ _ _ _ _ => "govips_similarity"
  | .affine _ _ _ _ _ _ _ _ _ _ _ _ => "govips_affine"
  | .gaussblur _ _ _ _ _ => "govips_gaussblur"
  | .sharpen _ _ _ _ _ _ _ _ => "govips_sharpen"
  | .flatten _ _ _ _ => "govips_flatten"
  | .colourspace _ _ _ _ => "govips_colourspace"
  | .icc_transform _ _ _ _ _ _ _ => "govips_icc_transform"

/-- The parameters of an invocation as C values, in the order of the C parameter list. -/
def shimParams : Invocation → List Val
  | .gifload_buffer input length output page access disc =>
      [.ptr input, .size length, .ptr output, .int page, .int access, .int disc]
  | .jpegload_buffer input length output shrink fail autorotate access disc =>
      [.ptr input, .size length, .ptr output, .int shrink, .int fail, .int autorotate,
       .int access, .int disc]
  | .jpegsave_buffer input output length Q profile optimize_coding interlace strip
      nosubsample trellis_quant overshoot_deringing optimize_scans quant_table =>
      [.ptr input, .ptr output, .ptr length, .int Q, .ptr profile, .int optimize_coding,
       .int interlace, .int strip, .int nosubsample, .int trellis_quant,
       .int overshoot_deringing, .int optimize_scans, .int quant_table]
  | .jpegsave input filename Q profile optimize_coding interlace strip nosubsample
      trellis_quant overshoot_deringing optimize_scans quant_table =>
      [.ptr input, .ptr filename, .int Q, .ptr profile, .int optimize_coding,
       .int interlace, .int strip, .int nosubsample, .int trellis_quant,
       .int overshoot_deringing, .int optimize_scans, .int quant_table]
  | .magickload_buffer input length output all_frames density page access disc =>
      [.ptr input, .size length, .ptr output, .int all_frames, .ptr density, .int page,
       .int access, .int disc]
  | .pngload_buffer input length output access disc =>
      [.ptr input, .size length, .ptr output, .int access, .int disc]
  | .pngsave_buffer input output length compression interlace profile filter =>
      [.ptr input, .ptr output, .ptr length, .int compression, .int interlace, .ptr profile,
       .int filter]
  | .pngsave input filename compression interlace profile filter =>
      [.ptr input, .ptr filename, .int compression, .int interlace, .ptr profile,
       .int filter]
  | .webpload_buffer input length output shrink access disc =>
      [.ptr input, .size length, .ptr output, .int shrink, .int access, .int disc]
  | .webpsave_buffer input output length Q lossless preset smart_subsample near_lossless
      alpha_q =>
      [.ptr input, .ptr output, .ptr length, .int Q, .int lossless, .int preset,
       .int smart_subsample, .int near_lossless, .int alpha_q]
  | .webpsave input filename Q lossless preset smart_subsample near_lossless alpha_q =>
      [.ptr input, .ptr filename, .int Q, .int lossless, .int preset, .int smart_subsample,
       .int near_lossless, .int alpha_q]
  | .embed in_ out x y width height extend background =>
      [.ptr in_, .ptr out, .int x, .int y, .int width, .int height, .int extend,
       .ptr background]
  | .extract_area in_ out left top width height =>
      [.ptr in_, .ptr out, .int left, .int top, .int width, .int height]
  | .shrink in_ out xshrink yshrink =>
      [.ptr in_, .ptr out, .double xshrink, .double yshrink]
  | .shrinkh in_ out xshrink =>
      [.ptr in_, .ptr out, .double xshrink]
  | .shrinkv in_ out yshrink =>
      [.ptr in_, .ptr out, .double yshrink]
  | .reduce in_ out xshrink yshrink kernel =>
      [.ptr in_, .ptr out, .double xshrink, .double yshrink, .int kernel]
  | .reduceh in_ out xshrink kernel =>
      [.ptr in_, .ptr out, .double xshrink, .int kernel]
  | .reducev in_ out yshrink kernel =>
      [.ptr in_, .ptr out, .double yshrink, .int kernel]
  | .resize in_ out scale vscale kernel =>
      [.ptr in_, .ptr out, .double scale, .double vscale, .int kernel]
  | .similarity in_ out scale angle interpolate idx idy odx ody =>
      [.ptr in_, .ptr out, .double scale, .double angle, .ptr interpolate, .double idx,
       .double idy, .double odx, .double ody]
  | .affine in_ out a b c d interpolate oarea idx idy odx ody =>
      [.ptr in_, .ptr out, .double a, .double b, .double c, .double d, .ptr interpolate,
       .ptr oarea, .double idx, .double idy, .double odx, .double ody]
  | .gaussblur in_ out sigma precision min_ampl =>
      [.ptr in_, .ptr out, .double sigma, .int precision, .double min_ampl]
  | .sharpen in_ out sigma x1 y2 y3 m1 m2 =>
      [.ptr in_, .ptr out, .double sigma, .double x1, .double y2, .double y3, .double m1,
       .double m2]
  | .flatten in_ out background max_alpha =>
      [.ptr in_, .ptr out, .ptr background, .double max_alpha]
  | .colourspace in_ out space source_space =>
      [.ptr in_, .ptr out, .int space, .int source_space]
  | .icc_transform in_ out output_profile input_profile intent depth embedded =>
      [.ptr in_, .ptr out, .ptr output_profile, .ptr input_profile, .int intent, .int depth,
       .int embedded]

/-- Run an invocation: dispatch to the shim it names. -/
def runShim {σ : Type} (VIPS_EXTEND_BACKGROUND : CInt) (lib : Lib σ) :
    Invocation → World σ → Int × World σ
  | .gifload_buffer input length output page access disc =>
      govips_gifload_buffer lib input length output page access disc
  | .jpegload_buffer input length output shrink fail autorotate access disc =>
      govips_jpegload_buffer lib input length output shrink fail autorotate access disc
  | .jpegsave_buffer input output length Q profile optimize_coding interlace strip
      nosubsample trellis_quant overshoot_deringing optimize_scans quant_table =>
      govips_jpegsave_buffer lib input output length Q profile optimize_coding interlace
        strip nosubsample trellis_quant overshoot_deringing optimize_scans quant_table
  | .jpegsave input filename Q profile optimize_coding interlace strip nosubsample
      trellis_quant overshoot_deringing optimize_scans quant_table =>
      govips_jpegsave lib input filename Q profile optimize_coding interlace strip
        nosubsample trellis_quant overshoot_deringing optimize_scans quant_table
  | .magickload_buffer input length output all_frames density page access disc =>
      govips_magickload_buffer lib input length output all_frames density page access disc
  | .pngload_buffer input length output access disc =>
      govips_pngload_buffer lib input length output access disc
  | .pngsave_buffer input output length compression interlace profile filter =>
      govips_pngsave_buffer lib input output length compression interlace profile filter
  | .pngsave input filename compression interlace profile filter =>
      govips_pngsave lib input filename compression interlace profile filter
  | .webpload_buffer input length output shrink access disc =>
      govips_webpload_buffer lib input length output shrink access disc
  | .webpsave_buffer input output length Q lossless preset smart_subsample near_lossless
      alpha_q =>
      govips_webpsave_buffer lib input output length Q lossless preset smart_subsample
        near_lossless alpha_q
  | .webpsave input filename Q lossless preset smart_subsample near_lossless alpha_q =>
      govips_webpsave lib input filename Q lossless preset smart_subsample near_lossless
        alpha_q
  | .embed in_ out x y width height extend background =>
      govips_embed VIPS_EXTEND_BACKGROUND lib in_ out x y width height extend background
  | .extract_area in_ out left top width height =>
      govips_extract_area lib in_ out left top width height
  | .shrink in_ out xshrink yshrink =>
      govips_shrink lib in_ out xshrink yshrink
  | .shrinkh in_ out xshrink =>
      govips_shrinkh lib in_ out xshrink
  | .shrinkv in_ out yshrink =>
      govips_shrinkv lib in_ out yshrink
  | .reduce in_ out xshrink yshrink kernel =>
      govips_reduce lib in_ out xshrink yshrink kernel
  | .reduceh in_ out xshrink kernel =>
      govips_reduceh lib in_ out xshrink kernel
  | .reducev in_ out yshrink kernel =>
      govips_reducev lib in_ out yshrink kernel
  | .resize in_ out scale vscale kernel =>
      govips_resize lib in_ out scale vscale kernel
  | .similarity in_ out scale angle interpolate idx idy odx ody =>
      govips_similarity lib in_ out scale angle interpolate idx idy odx ody
  | .affine in_ out a b c d interpolate oarea idx idy odx ody =>
      govips_affine lib in_ out a b c d interpolate oarea idx idy odx ody
  | .gaussblur in_ out sigma precision min_ampl =>
      govips_gaussblur lib in_ out sigma precision min_ampl
  | .sharpen in_ out sigma x1 y2 y3 m1 m2 =>
      govips_sharpen lib in_ out sigma x1 y2 y3 m1 m2
  | .flatten in_ out background max_alpha =>
      govips_flatten lib in_ out background max_alpha
  | .colourspace in_ out space source_space =>
      govips_colourspace lib in_ out space source_space
  | .icc_transform in_ out output_profile input_profile intent depth embedded =>
      govips_icc_transform lib in_ out output_profile input_profile intent depth embedded

/-! ## Layout helpers -/

/-- Value of an integer expression once it is held in a 32-bit `int`. -/
def wrapInt (i : Int) : CInt :=
  (i + 2 ^ 31) % 2 ^ 32 - 2 ^ 31

/-- Value of an integer expression once it is held in a 64-bit address or
`size_t`. -/
def wrapAddr (i : Int) : Ptr :=
  (i % 2 ^ 64).toNat

/-- Modelled from the spec: the libvips rectangle type `VipsRect`, whose
declaration is in the libvips headers.  It has the four `int` fields that
`govips_rect_new` initialises by name. -/
structure VipsRect where
  left : CInt
  top : CInt
  width : CInt
  height : CInt
  deriving DecidableEq, Repr

/-- Source: `govips_rect_new`. -/
def govips_rect_new (left top width height : CInt) : VipsRect :=
  { left := left, top := top, width := width, height := height }

/-- Modelled from the spec: the part of a libvips image (`VipsImage`, declared
in the libvips headers) that the element count of a region reads: its number of
bands. -/
structure VipsImage where
  Bands : CInt
  deriving DecidableEq, Repr

/-- Modelled from the spec: the part of a libvips region (`VipsRegion`,
declared in the libvips headers) that the layout helpers read: the image, the
valid rectangle, the address of the pixel at the top left of the valid
rectangle, the distance in bytes between two lines, and the size in bytes of
one pixel. -/
structure VipsRegion where
  im : VipsImage
  valid : VipsRect
  data : Ptr
  lineskip : CSize
  sizeof_pel : CSize
  deriving DecidableEq, Repr

/-- Modelled from the spec: the libvips accessor `VIPS_REGION_ADDR(R, X, Y)`,
defined in the libvips headers.  By the documented region layout it is
`data + (Y - valid.top) * lineskip + (X - valid.left) * sizeof_pel`, held in an
address. -/
def VIPS_REGION_ADDR (r : VipsRegion) (x y : CInt) : Ptr :=
  wrapAddr (r.data + (y - r.valid.top) * r.lineskip + (x - r.valid.left) * r.sizeof_pel)

/-- Modelled from the spec: the libvips accessor `VIPS_REGION_N_ELEMENTS(R)`,
defined in the libvips headers: the width of the valid rectangle multiplied by
the number of bands of the image. -/
def VIPS_REGION_N_ELEMENTS (r : VipsRegion) : Int :=
  r.valid.width * r.im.Bands

/-- Source: `govips_region_addr`. -/
def govips_region_addr (r : VipsRegion) (x y : CInt) : Ptr :=
  VIPS_REGION_ADDR r x y

/-- Source: `govips_vips_region_n_elements`.  The result is returned as an
`int`. -/
def govips_vips_region_n_elements (r : VipsRegion) : CInt :=
  wrapInt (VIPS_REGION_N_ELEMENTS r)

/-- Source: `govips_pel_band`.  A `VipsPel` is one byte, so `p + n` moves the
address by `n`. -/
def govips_pel_band (p : Ptr) (n : CInt) : Ptr :=
  wrapAddr (p + n)

/-! ## Sample inputs -/

/-- A library that accepts every call and keeps no state. -/
def acceptAll : Lib Unit :=
  fun _ s => (0, s)

/-- The world before any call. -/
def emptyWorld : World Unit :=
  ⟨(), []⟩

/-- A region of 10 by 10 pixels of 4 one-byte bands at address 4096. -/
def sampleRegion : VipsRegion :=
  { im := { Bands := 4 }, valid := { left := 2, top := 3, width := 10, height := 10 },
    data := 4096, lineskip := 40, sizeof_pel := 4 }

/-! ## Conditional options -/

/-- C1: `govips_embed` makes one `vips_embed` call whose positional arguments
are `(in, out, x, y, width, height)` and which carries `extend = extend`.  The
call carries `background = background` exactly when `extend` is
`VIPS_EXTEND_BACKGROUND` and `background` is not `NULL`; otherwise `extend` is
its only option.  No option other than these two is ever present. -/
theorem govips_embed_options {σ : Type} (VIPS_EXTEND_BACKGROUND : CInt) (lib : Lib σ)
    (in_ out : Ptr) (x y width height extend : CInt) (background : Ptr) (w : World σ) :
    ∃ c : Call,
      govips_embed VIPS_EXTEND_BACKGROUND lib in_ out x y width height extend background w
        = vips_call lib c w
      ∧ c.entry = "vips_embed"
      ∧ c.positional = [.ptr in_, .ptr out, .int x, .int y, .int width, .int height]
      ∧ c.option "extend" = some (.int extend)
      ∧ (c.option "background" = some (.ptr background)
          ↔ (extend = VIPS_EXTEND_BACKGROUND ∧ background ≠ 0))
      ∧ ("background" ∈ c.optionNames
          ↔ (extend = VIPS_EXTEND_BACKGROUND ∧ background ≠ 0))
      ∧ (¬ (extend = VIPS_EXTEND_BACKGROUND ∧ background ≠ 0) →
          c.options = [("extend", .int extend)])
      ∧ (∀ name ∈ c.optionNames, name = "extend" ∨ name = "background") := by
  by_cases h : extend = VIPS_EXTEND_BACKGROUND ∧ background ≠ 0
  · refine ⟨_, by rw [govips_embed, if_pos h], rfl, rfl, ?_, ?_, ?_, ?_, ?_⟩
    · simp [Call.option]
    · simp [Call.option, h]
    · simp [Call.optionNames, h]
    · intro hn; exact absurd h hn
    · simp [Call.optionNames]
  · refine ⟨_, by rw [govips_embed, if_neg h], rfl, rfl, ?_, ?_, ?_, ?_, ?_⟩
    · simp [Call.option]
    · simp [Call.option, h]
    · simp [Call.optionNames, h]
    · intro _; rfl
    · simp [Call.optionNames]

/-- C2: `govips_affine` makes one `vips_affine` call whose positional arguments
are `(in, out, a, b, c, d)` and which carries `interpolate`, `idx`, `idy`, `odx`
and `ody` from the parameters of the same name.  The call carries
`oarea = oarea` exactly when `oarea` is not `NULL`, and with the `oarea` option
taken out the option list is the same list in both cases. -/
theorem govips_affine_options {σ : Type} (lib : Lib σ)
    (in_ out : Ptr) (a b c d : CDouble) (interpolate oarea : Ptr)
    (idx idy odx ody : CDouble) (w : World σ) :
    ∃ k : Call,
      govips_affine lib in_ out a b c d interpolate oarea idx idy odx ody w
        = vips_call lib k w
      ∧ k.entry = "vips_affine"
      ∧ k.positional = [.ptr in_, .ptr out, .double a, .double b, .double c, .double d]
      ∧ k.option "interpolate" = some (.ptr interpolate)
      ∧ k.option "idx" = some (.double idx)
      ∧ k.option "idy" = some (.double idy)
      ∧ k.option "odx" = some (.double odx)
      ∧ k.option "ody" = some (.double ody)
      ∧ (k.option "oarea" = some (.ptr oarea) ↔ oarea ≠ 0)
      ∧ ("oarea" ∈ k.optionNames ↔ oarea ≠ 0)
      ∧ k.options.filter (fun kv => decide (kv.1 ≠ "oarea"))
          = [("interpolate", .ptr interpolate), ("idx", .double idx), ("idy", .double idy),
             ("odx", .double odx), ("ody", .double ody)] := by
  by_cases h : oarea = 0
  · refine ⟨_, by rw [govips_affine, if_pos h], rfl, rfl, ?_, ?_, ?_, ?_, ?_, ?_, ?_, ?_⟩ <;>
      simp [Call.option, Call.optionNames, h]
  · refine ⟨_, by rw [govips_affine, if_neg h], rfl, rfl, ?_, ?_, ?_, ?_, ?_, ?_, ?_, ?_⟩ <;>
      simp [Call.option, Call.optionNames, h]

/-- C3: `govips_flatten` makes one `vips_flatten` call on `(in, out)` that
always carries `max_alpha = max_alpha` and carries `background = background`
exactly when `background` is not `NULL`.  A `NULL` pointer is never among the
option values of the call. -/
theorem govips_flatten_options {σ : Type} (lib : Lib σ)
    (in_ out background : Ptr) (max_alpha : CDouble) (w : World σ) :
    ∃ c : Call,
      govips_flatten lib in_ out background max_alpha w = vips_call lib c w
      ∧ c.entry = "vips_flatten"
      ∧ c.positional = [.ptr in_, .ptr out]
      ∧ c.option "max_alpha" = some (.double max_alpha)
      ∧ (c.option "background" = some (.ptr background) ↔ background ≠ 0)
      ∧ ("background" ∈ c.optionNames ↔ background ≠ 0)
      ∧ Val.ptr 0 ∉ c.optionValues
      ∧ (∀ name ∈ c.optionNames, name = "background" ∨ name = "max_alpha") := by
  by_cases h : background = 0
  · refine ⟨_, by rw [govips_flatten, if_pos h], rfl, rfl, ?_, ?_, ?_, ?_, ?_⟩ <;>
      simp [Call.option, Call.optionNames, Call.optionValues, h]
  · refine ⟨_, by rw [govips_flatten, if_neg h], rfl, rfl, ?_, ?_, ?_, ?_, ?_⟩ <;>
      simp [Call.option, Call.optionNames, Call.optionValues, h]
    exact fun hb => h hb.symm

/-! ## One call, status passed through -/

/-- C5: every shim from `govips_gifload_buffer` through `govips_icc_transform`,
on all arguments, makes exactly one library call (the log grows by one entry),
to the entry point named after the shim (`govips_X` calls `vips_X`), leaves the
library in the state that call produced, and returns the status code of that
call unchanged; so it returns non-zero exactly when the call did. -/
theorem shim_one_call_status_unchanged {σ : Type} (VIPS_EXTEND_BACKGROUND : CInt)
    (lib : Lib σ) (inv : Invocation) (w : World σ) :
    ∃ c : Call,
      (runShim VIPS_EXTEND_BACKGROUND lib inv w).2.calls = w.calls ++ [c]
      ∧ "go" ++ c.entry = shimName inv
      ∧ (runShim VIPS_EXTEND_BACKGROUND lib inv w).1 = (lib c w.state).1
      ∧ (runShim VIPS_EXTEND_BACKGROUND lib inv w).2.state = (lib c w.state).2
      ∧ ((runShim VIPS_EXTEND_BACKGROUND lib inv w).1 ≠ 0 ↔ (lib c w.state).1 ≠ 0) := by
  cases inv
  case embed in_ out x y width height extend background =>
    by_cases h : extend = VIPS_EXTEND_BACKGROUND ∧ background ≠ 0
    · simp only [runShim, govips_embed, if_pos h]
      exact ⟨_, rfl, rfl, rfl, rfl, Iff.rfl⟩
    · simp only [runShim, govips_embed, if_neg h]
      exact ⟨_, rfl, rfl, rfl, rfl, Iff.rfl⟩
  case affine in_ out a b c d interpolate oarea idx idy odx ody =>
    by_cases h : oarea = 0
    · simp only [runShim, govips_affine, if_pos h]
      exact ⟨_, rfl, rfl, rfl, rfl, Iff.rfl⟩
    · simp only [runShim, govips_affine, if_neg h]
      exact ⟨_, rfl, rfl, rfl, rfl, Iff.rfl⟩
  case flatten in_ out background max_alpha =>
    by_cases h : background = 0
    · simp only [runShim, govips_flatten, if_pos h]
      exact ⟨_, rfl, rfl, rfl, rfl, Iff.rfl⟩
    · simp only [runShim, govips_flatten, if_neg h]
      exact ⟨_, rfl, rfl, rfl, rfl, Iff.rfl⟩
  all_goals exact ⟨_, rfl, rfl, rfl, rfl, Iff.rfl⟩

/-! ## Which values a shim hands on -/

/-- C4 (as stated, refuted): `govips_webpsave_buffer` called with
`Q = 75`, `alpha_q = 100` and every flag `0` hands the library the option value
`1` (for `strip`), which is none of its parameters. -/
theorem webpsave_buffer_strip_not_a_parameter :
    ¬ (∀ c ∈ (runShim 5 acceptAll
                (.webpsave_buffer 4096 8192 8200 75 0 0 0 0 100) emptyWorld).2.calls,
        ∀ v ∈ c.positional ++ c.optionValues,
          v ∈ shimParams (.webpsave_buffer 4096 8192 8200 75 0 0 0 0 100)) := by
  intro h
  have h1 := h ⟨"vips_webpsave_buffer", [.ptr 4096, .ptr 8192, .ptr 8200],
      [("Q", .int 75), ("lossless", .int 0), ("preset", .int 0), ("smart_subsample", .int 0),
       ("near_lossless", .int 0), ("alpha_q", .int 100), ("strip", .int 1)]⟩
    (by simp [runShim, govips_webpsave_buffer, vips_call, emptyWorld])
    (.int 1) (by simp [Call.optionValues])
  simp [shimParams] at h1

/-- Conversion of 2.5, 0.9, -2.5 and 1e10 to `int`: 2, 0, -2, and (out of
range) `INT_MIN`. -/
theorem double_to_int_samples :
    double_to_int 0x4004000000000000 = 2
    ∧ double_to_int 0x3FECCCCCCCCCCCCD = 0
    ∧ double_to_int 0xC004000000000000 = -2
    ∧ double_to_int 0x4202A05F20000000 = -2 ^ 31 := by
  refine ⟨?_, ?_, ?_, ?_⟩ <;> decide

/-- C4 (amended): for every shim and all arguments the call made is fixed by
the arguments alone (it is the same for every library and state).  Each
positional argument of the call is one of the parameters of the shim, except
the shrink factor of `govips_shrinkh` and `govips_shrinkv`, which is the
`double` parameter converted to `int`.  Each option value is one of the
parameters of the shim, except that the two WebP encoders,
`govips_webpsave_buffer` and `govips_webpsave`, pass the constant option
`strip = 1`, and they always do. -/
theorem shim_values_forwarded (VIPS_EXTEND_BACKGROUND : CInt) (inv : Invocation) :
    ∃ c : Call,
      (∀ (σ : Type) (lib : Lib σ) (w : World σ),
          runShim VIPS_EXTEND_BACKGROUND lib inv w = vips_call lib c w)
      ∧ (∀ v ∈ c.positional,
          v ∈ shimParams inv
          ∨ ((shimName inv = "govips_shrinkh" ∨ shimName inv = "govips_shrinkv")
              ∧ ∃ d : CDouble, Val.double d ∈ shimParams inv
                  ∧ v = Val.int (double_to_int d)))
      ∧ (∀ kv ∈ c.options,
          kv.2 ∈ shimParams inv
          ∨ (kv = ("strip", Val.int 1)
              ∧ (shimName inv = "govips_webpsave_buffer"
                  ∨ shimName inv = "govips_webpsave")))
      ∧ ((shimName inv = "govips_webpsave_buffer" ∨ shimName inv = "govips_webpsave") →
          ("strip", Val.int 1) ∈ c.options
          ∧ ∀ kv ∈ c.options, kv ≠ ("strip", Val.int 1) → kv.2 ∈ shimParams inv)
      ∧ ((shimName inv = "govips_shrinkh" ∨ shimName inv = "govips_shrinkv") →
          ∃ (i o : Ptr) (d : CDouble),
            shimParams inv = [Val.ptr i, Val.ptr o, Val.double d]
            ∧ c.positional = [Val.ptr i, Val.ptr o, Val.int (double_to_int d)]
            ∧ c.options = []) := by
  cases inv
  case embed in_ out x y width height extend background =>
    by_cases h : extend = VIPS_EXTEND_BACKGROUND ∧ background ≠ 0
    · refine ⟨_, fun σ lib w => by rw [runShim, govips_embed, if_pos h], ?_, ?_, ?_, ?_⟩ <;>
        simp [shimParams, shimName]
    · refine ⟨_, fun σ lib w => by rw [runShim, govips_embed, if_neg h], ?_, ?_, ?_, ?_⟩ <;>
        simp [shimParams, shimName]
  case affine in_ out a b c d interpolate oarea idx idy odx ody =>
    by_cases h : oarea = 0
    · refine ⟨_, fun σ lib w => by rw [runShim, govips_affine, if_pos h], ?_, ?_, ?_, ?_⟩ <;>
        simp [shimParams, shimName]
    · refine ⟨_, fun σ lib w => by rw [runShim, govips_affine, if_neg h], ?_, ?_, ?_, ?_⟩ <;>
        simp [shimParams, shimName]
  case flatten in_ out background max_alpha =>
    by_cases h : background = 0
    · refine ⟨_, fun σ lib w => by rw [runShim, govips_flatten, if_pos h], ?_, ?_, ?_, ?_⟩ <;>
        simp [shimParams, shimName]
    · refine ⟨_, fun σ lib w => by rw [runShim, govips_flatten, if_neg h], ?_, ?_, ?_, ?_⟩ <;>
        simp [shimParams, shimName]
  case shrinkh in_ out xshrink =>
    exact ⟨_, fun σ lib w => rfl, by simp [shimParams, shimName], by simp,
      by simp [shimName], fun _ => ⟨in_, out, xshrink, rfl, rfl, rfl⟩⟩
  case shrinkv in_ out yshrink =>
    exact ⟨_, fun σ lib w => rfl, by simp [shimParams, shimName], by simp,
      by simp [shimName], fun _ => ⟨in_, out, yshrink, rfl, rfl, rfl⟩⟩
  all_goals
    refine ⟨_, fun σ lib w => rfl, ?_, ?_, ?_, ?_⟩ <;> simp [shimParams, shimName]

/-! ## Buffer and file encoders -/

/-- C9: for JPEG, PNG and WebP, the buffer encoder and the file encoder, given
the same option arguments, hand the library the same option list (same names,
same order, same values).  The calls differ only in the entry point and in the
destination that follows the image among the positional arguments: output
buffer and length for the buffer variant, file name for the file variant. -/
theorem save_buffer_and_file_same_options {σ : Type} (lib : Lib σ) (w1 w2 : World σ)
    (input output length filename : Ptr)
    (Q : CInt) (profile : Ptr)
    (optimize_coding interlace strip nosubsample trellis_quant overshoot_deringing
      optimize_scans quant_table : CInt)
    (compression filter lossless preset smart_subsample near_lossless alpha_q : CInt) :
    (∃ cb cf : Call,
      govips_jpegsave_buffer lib input output length Q profile optimize_coding interlace
          strip nosubsample trellis_quant overshoot_deringing optimize_scans quant_table w1
        = vips_call lib cb w1
      ∧ govips_jpegsave lib input filename Q profile optimize_coding interlace
          strip nosubsample trellis_quant overshoot_deringing optimize_scans quant_table w2
        = vips_call lib cf w2
      ∧ cb.options = cf.options
      ∧ cb.options =
          [("Q", .int Q), ("profile", .ptr profile),
           ("optimize_coding", .int optimize_coding), ("interlace", .int interlace),
           ("strip", .int strip), ("no-subsample", .int nosubsample),
           ("trellis_quant", .int trellis_quant),
           ("overshoot_deringing", .int overshoot_deringing),
           ("optimize_scans", .int optimize_scans), ("quant_table", .int quant_table)]
      ∧ cb.entry = "vips_jpegsave_buffer" ∧ cf.entry = "vips_jpegsave"
      ∧ cb.positional = [.ptr input, .ptr output, .ptr length]
      ∧ cf.positional = [.ptr input, .ptr filename])
    ∧ (∃ cb cf : Call,
      govips_pngsave_buffer lib input output length compression interlace profile filter w1
        = vips_call lib cb w1
      ∧ govips_pngsave lib input filename compression interlace profile filter w2
        = vips_call lib cf w2
      ∧ cb.options = cf.options
      ∧ cb.options =
          [("compression", .int compression), ("interlace", .int interlace),
           ("profile", .ptr profile), ("filter", .int filter)]
      ∧ cb.entry = "vips_pngsave_buffer" ∧ cf.entry = "vips_pngsave"
      ∧ cb.positional = [.ptr input, .ptr output, .ptr length]
      ∧ cf.positional = [.ptr input, .ptr filename])
    ∧ (∃ cb cf : Call,
      govips_webpsave_buffer lib input output length Q lossless preset smart_subsample
          near_lossless alpha_q w1
        = vips_call lib cb w1
      ∧ govips_webpsave lib input filename Q lossless preset smart_subsample
          near_lossless alpha_q w2
        = vips_call lib cf w2
      ∧ cb.options = cf.options
      ∧ cb.options =
          [("Q", .int Q), ("lossless", .int lossless), ("preset", .int preset),
           ("smart_subsample", .int smart_subsample),
           ("near_lossless", .int near_lossless), ("alpha_q", .int alpha_q),
           ("strip", .int 1)]
      ∧ cb.entry = "vips_webpsave_buffer" ∧ cf.entry = "vips_webpsave"
      ∧ cb.positional = [.ptr input, .ptr output, .ptr length]
      ∧ cf.positional = [.ptr input, .ptr filename]) :=
  ⟨⟨_, _, rfl, rfl, rfl, rfl, rfl, rfl, rfl, rfl⟩,
   ⟨_, _, rfl, rfl, rfl, rfl, rfl, rfl, rfl, rfl⟩,
   ⟨_, _, rfl, rfl, rfl, rfl, rfl, rfl, rfl, rfl⟩⟩

/-! ## Properties of the layout helpers -/

/-- C7: for all integers `left`, `top`, `width` and `height`, also zero and
negative ones, `govips_rect_new` returns the rectangle whose four fields are
these four values, each in its own field and unchanged. -/
theorem govips_rect_new_fields (left top width height : CInt) :
    (govips_rect_new left top width height).left = left
    ∧ (govips_rect_new left top width height).top = top
    ∧ (govips_rect_new left top width height).width = width
    ∧ (govips_rect_new left top width height).height = height
    ∧ govips_rect_new left top width height = ⟨left, top, width, height⟩ :=
  ⟨rfl, rfl, rfl, rfl, rfl⟩

/-- An integer that is a 64-bit address is left as it is when held in one. -/
theorem wrapAddr_of_lt (i : Int) (h0 : 0 ≤ i) (h1 : i < 2 ^ 64) : (wrapAddr i : Int) = i := by
  unfold wrapAddr
  rw [Int.emod_eq_of_lt h0 h1, Int.toNat_of_nonneg h0]

/-- An integer in the range of `int` is left as it is when held in one. -/
theorem wrapInt_of_range (i : Int) (h0 : -2 ^ 31 ≤ i) (h1 : i < 2 ^ 31) : wrapInt i = i := by
  unfold wrapInt
  rw [Int.emod_eq_of_lt (by omega) (by omega)]
  show i + 2 ^ 31 - 2 ^ 31 = i
  ring

/-- C8: for an address `p` and band indices `a` and `b` such that neither
`p + a` nor `p + a + b` leaves the 64-bit address range, `govips_pel_band p a`
is the address `p + a` (one byte per element), `govips_pel_band p 0` is `p`, and
offsetting by `a` and then by `b` is offsetting by `a + b`. -/
theorem govips_pel_band_offset (p : Ptr) (a b : CInt) (hp : p < 2 ^ 64)
    (ha : 0 ≤ (p : Int) + a ∧ (p : Int) + a < 2 ^ 64)
    (hb : 0 ≤ (p : Int) + a + b ∧ (p : Int) + a + b < 2 ^ 64) :
    (govips_pel_band p a : Int) = p + a
    ∧ govips_pel_band p 0 = p
    ∧ govips_pel_band (govips_pel_band p a) b = govips_pel_band p (a + b) := by
  have hp0 : (0 : Int) ≤ (p : Int) := Int.ofNat_nonneg p
  have hp1 : (p : Int) < 2 ^ 64 := by exact_mod_cast hp
  have h1 : (govips_pel_band p a : Int) = p + a := wrapAddr_of_lt _ ha.1 ha.2
  have h0 : (govips_pel_band p 0 : Int) = p := by
    unfold govips_pel_band
    rw [add_zero]
    exact wrapAddr_of_lt _ hp0 hp1
  have h2 : (govips_pel_band (govips_pel_band p a) b : Int) = p + a + b := by
    show ((wrapAddr ((govips_pel_band p a : Int) + b) : Ptr) : Int) = p + a + b
    rw [h1]
    exact wrapAddr_of_lt _ hb.1 hb.2
  have h3 : (govips_pel_band p (a + b) : Int) = p + a + b := by
    unfold govips_pel_band
    rw [← add_assoc]
    exact wrapAddr_of_lt _ hb.1 hb.2
  exact ⟨h1, by exact_mod_cast h0, by exact_mod_cast h2.trans h3.symm⟩

/-- C8, at a concrete input: from address 4096, offsets 3 and then -2. -/
theorem govips_pel_band_offset_witness :
    (govips_pel_band 4096 3 : Int) = 4096 + 3
    ∧ govips_pel_band 4096 0 = 4096
    ∧ govips_pel_band (govips_pel_band 4096 3) (-2) = govips_pel_band 4096 (3 + -2) :=
  govips_pel_band_offset 4096 3 (-2) (by norm_num) (by norm_num) (by norm_num)

/-- C10: `govips_region_addr r x y` is the library accessor applied to
`(r, x, y)` in that order.  For `x`, `y` inside the valid rectangle of `r`,
with the addressed pixel inside the 64-bit address range, it is
`r.data + (y - r.valid.top) * lineskip + (x - r.valid.left) * sizeof_pel`; at
the top left corner of the valid rectangle it is `r.data`.
`govips_vips_region_n_elements r` is the `int` product of `r.valid.width` and
the number of bands of the image, which is their product whenever that fits an
`int`. -/
theorem govips_region_layout (r : VipsRegion) (x y : CInt) :
    govips_region_addr r x y = VIPS_REGION_ADDR r x y
    ∧ (r.valid.left ≤ x ∧ x < r.valid.left + r.valid.width →
        r.valid.top ≤ y ∧ y < r.valid.top + r.valid.height →
        (r.data : Int) + (y - r.valid.top) * r.lineskip
            + (x - r.valid.left) * r.sizeof_pel < 2 ^ 64 →
        (govips_region_addr r x y : Int)
          = r.data + (y - r.valid.top) * r.lineskip + (x - r.valid.left) * r.sizeof_pel)
    ∧ (r.data < 2 ^ 64 → govips_region_addr r r.valid.left r.valid.top = r.data)
    ∧ govips_vips_region_n_elements r = wrapInt (r.valid.width * r.im.Bands)
    ∧ (-2 ^ 31 ≤ r.valid.width * r.im.Bands ∧ r.valid.width * r.im.Bands < 2 ^ 31 →
        govips_vips_region_n_elements r = r.valid.width * r.im.Bands) := by
  refine ⟨rfl, ?_, ?_, rfl, ?_⟩
  · intro hx hy hlt
    have h1 : (0 : Int) ≤ (y - r.valid.top) * r.lineskip :=
      mul_nonneg (by linarith [hy.1]) (Int.ofNat_nonneg _)
    have h2 : (0 : Int) ≤ (x - r.valid.left) * r.sizeof_pel :=
      mul_nonneg (by linarith [hx.1]) (Int.ofNat_nonneg _)
    have h3 : (0 : Int) ≤ (r.data : Int) := Int.ofNat_nonneg _
    exact wrapAddr_of_lt _ (by linarith) hlt
  · intro hd
    have h : (govips_region_addr r r.valid.left r.valid.top : Int) = r.data := by
      have h0 := wrapAddr_of_lt (r.data : Int) (Int.ofNat_nonneg _) (by exact_mod_cast hd)
      simpa [govips_region_addr, VIPS_REGION_ADDR] using h0
    exact_mod_cast h
  · intro hn
    exact wrapInt_of_range _ hn.1 hn.2

/-- C10, at a concrete input: pixel (5, 7) of a region whose valid rectangle
starts at (2, 3), with 40 bytes a line and 4 bytes a pixel, from address 4096;
and the element count of its 10 pixel wide, 4 band lines. -/
theorem govips_region_layout_witness :
    (govips_region_addr sampleRegion 5 7 : Int) = 4096 + (7 - 3) * 40 + (5 - 2) * 4
    ∧ govips_region_addr sampleRegion 2 3 = 4096
    ∧ govips_vips_region_n_elements sampleRegion = 10 * 4 :=
  ⟨(govips_region_layout sampleRegion 5 7).2.1 (by decide) (by decide) (by decide),
   (govips_region_layout sampleRegion 2 3).2.2.1 (by decide),
   (govips_region_layout sampleRegion 5 7).2.2.2.2 (by decide)⟩

end Govips
